import Mathlib

/-!
Shallow embedding of the clothing-segmentation and recognition pipeline of the
smart-closet repository.

Sources embedded:
* `src/src/services/clothingSegmentationService.ts` — the segmentation
  orchestrator (`segmentClothing`, `segmentWithGoogleVision`,
  `mapGoogleLabelToCategory`, `mockSegmentation`);
* `src/src/services/backgroundRemovalService.ts` — the background-removal
  component (`removeBackgroundWithRemoveBg`);
* `src/unnamed/part_003` (aiService) — the mock recognition client
  (`mockRecognitionMultiple`).

Numbers (detection scores, normalized coordinates) are modelled as rationals,
JS `Math.floor` as the integer floor on `ℚ`.  External effects (the HTTP call,
image manipulation, the file system) are modelled as an explicit environment
record: each field records the outcome the outside world would produce, and
the Lean functions mirror the control flow of the TypeScript source over that
environment.
-/

/-- The six clothing categories of `ClothingCategory` in `src/src/types/index.ts`. -/
inductive ClothingCategory
  | top | bottom | dress | outerwear | shoes | accessories
  deriving DecidableEq, Repr, Inhabited

/-- Does the character list `s` start with `sub`? (helper for JS `String.includes`). -/
def chMatchesAt (sub s : List Char) : Bool :=
  match sub, s with
  | [], _ => true
  | _ :: _, [] => false
  | a :: sub, b :: s => a == b && chMatchesAt sub s

/-- Does the character list `s` contain `sub` as a contiguous run?
(JS `String.includes` over the character lists). -/
def chContains (sub : List Char) : List Char → Bool
  | [] => sub.isEmpty
  | b :: t => chMatchesAt sub (b :: t) || chContains sub t

/-- JS `s.includes(sub)` on strings. -/
def strContains (s sub : String) : Bool := chContains sub.toList s.toList

/-- JS `s.toLowerCase()` (restricted to the per-character lowering that the
label strings of this code base exercise). -/
def strLower (s : String) : String := String.mk (s.toList.map Char.toLower)

/-- The person/body-part exclusion list of `mapGoogleLabelToCategory`
(`clothingSegmentationService.ts` lines 216-219). -/
def excludeKeywords : List String :=
  ["person", "people", "human", "man", "woman", "boy", "girl",
   "face", "head", "body", "hand", "leg", "arm", "foot"]

/-- The ordered keyword → category table of `mapGoogleLabelToCategory`
(`clothingSegmentationService.ts` lines 229-270); JS object literals iterate
string keys in insertion order, so a list preserves the semantics. -/
def categoryMap : List (String × ClothingCategory) :=
  [("shirt", .top), ("top", .top), ("t-shirt", .top), ("blouse", .top),
   ("sweater", .top), ("tank top", .top),
   ("pants", .bottom), ("trousers", .bottom), ("jeans", .bottom),
   ("shorts", .bottom), ("skirt", .bottom),
   ("dress", .dress), ("gown", .dress),
   ("jacket", .outerwear), ("coat", .outerwear), ("blazer", .outerwear),
   ("cardigan", .outerwear),
   ("shoe", .shoes), ("shoes", .shoes), ("boot", .shoes), ("sneaker", .shoes),
   ("sandal", .shoes), ("heel", .shoes),
   ("hat", .accessories), ("bag", .accessories), ("scarf", .accessories),
   ("belt", .accessories), ("sunglasses", .accessories), ("watch", .accessories)]

/-- `mapGoogleLabelToCategory` (`clothingSegmentationService.ts` lines 212-279):
lower-case the label; return `none` when any exclusion keyword occurs in it;
otherwise the category of the first matching table keyword; else `none`. -/
def mapGoogleLabelToCategory (label : String) : Option ClothingCategory :=
  let lowerLabel := strLower label
  if excludeKeywords.any (fun keyword => strContains lowerLabel keyword) then
    none
  else
    match categoryMap.find? (fun p => strContains lowerLabel p.1) with
    | some p => some p.2
    | none => none

/-- A pixel-space bounding box (the `boundingBox` field of
`SegmentedClothingItem`). -/
structure PixelBox where
  x : ℤ
  y : ℤ
  width : ℤ
  height : ℤ
  deriving DecidableEq, Repr

/-- `SegmentedClothingItem` of `clothingSegmentationService.ts` lines 9-19. -/
structure SegmentedClothingItem where
  category : ClothingCategory
  imageUri : String
  boundingBox : PixelBox
  confidence : ℚ
  deriving DecidableEq, Repr

/-- One entry of `localizedObjectAnnotations` as the code reads it: the label
`name`, the detection `score`, and the two normalized vertices the code uses
(`vertices[0]` = top-left, `vertices[2]` = bottom-right). -/
structure VisionObject where
  name : String
  score : ℚ
  v0x : ℚ
  v0y : ℚ
  v2x : ℚ
  v2y : ℚ
  deriving DecidableEq, Repr

/-- Environment of one `segmentWithGoogleVision` run: outcomes of the external
effects (credential presence, the HTTP response, the detected objects, image
size, and the per-call results of cropping and background removal, `none`
modelling a throw/failure of that call). -/
structure VisionEnv where
  apiKeyConfigured : Bool
  serviceOk : Bool
  objects : List VisionObject
  imageWidth : ℚ
  imageHeight : ℚ
  cropResult : String → PixelBox → Option String
  removeBgResult : String → Option String

/-- The errors `segmentWithGoogleVision` can throw. -/
inductive SegError
  | apiKeyNotConfigured
  | apiCallFailed
  | noClothingDetected
  deriving DecidableEq, Repr

/-- `CONFIDENCE_THRESHOLD` (`clothingSegmentationService.ts` line 128). -/
def CONFIDENCE_THRESHOLD : ℚ := 3/10

/-- Round a rational to the nearest integer, ties to even (the rounding of
IEEE 754 round-to-nearest mode applied to a scaled significand). -/
def roundNearestEven (m : ℚ) : ℤ :=
  if m - (⌊m⌋ : ℚ) < 1/2 then ⌊m⌋
  else if 1/2 < m - (⌊m⌋ : ℚ) then ⌊m⌋ + 1
  else if ⌊m⌋ % 2 = 0 then ⌊m⌋ else ⌊m⌋ + 1

/-- Round a positive rational to the nearest IEEE binary64 value: scale into
the 53-bit significand range `[2^52, 2^53)`, round to nearest (ties to even),
and scale back.  Overflow and subnormals lie far outside the magnitudes this
code exercises and are not modelled. -/
def flPos (q : ℚ) : ℚ :=
  (roundNearestEven (q * (2:ℚ)^(52 - Int.log 2 q)) : ℚ) *
    (2:ℚ)^(Int.log 2 q - 52)

/-- The IEEE binary64 rounding of an exact rational value: JS number
arithmetic computes `fl` of the exact result of each operation. -/
def fl (q : ℚ) : ℚ :=
  if q = 0 then 0
  else if q < 0 then -flPos (-q) else flPos q

/-- The binary64 value of the decimal literal 0.1. -/
def dbl_0_1 : ℚ := 3602879701896397/36028797018963968

/-- The binary64 value of the decimal literal 0.2. -/
def dbl_0_2 : ℚ := 3602879701896397/18014398509481984

/-- The binary64 value of the decimal literal 0.6. -/
def dbl_0_6 : ℚ := 5404319552844595/9007199254740992

/-- The binary64 value of the decimal literal 0.7. -/
def dbl_0_7 : ℚ := 3152519739159347/4503599627370496

/-- The coordinate conversion of `clothingSegmentationService.ts` lines
154-157 under IEEE binary64 semantics: each JS arithmetic operation rounds its
exact result to the nearest double (`fl`), and `Math.floor` floors that
rounded value.  The vertex fields hold double values as the service delivers
them; the integer image dimensions are exact in binary64, and the products
`v * dim` and differences `v2 - v0` each round once, exactly as the source
expressions `vertices[0].x * imageWidth` and
`(vertices[2].x - vertices[0].x) * imageWidth` evaluate. -/
def toPixelBox (obj : VisionObject) (imageWidth imageHeight : ℚ) : PixelBox :=
  { x := ⌊fl (obj.v0x * imageWidth)⌋
    y := ⌊fl (obj.v0y * imageHeight)⌋
    width := ⌊fl (fl (obj.v2x - obj.v0x) * imageWidth)⌋
    height := ⌊fl (fl (obj.v2y - obj.v0y) * imageHeight)⌋ }

/-- Body of the per-candidate loop of `segmentWithGoogleVision` after the
confidence filter (lines 145-192): map the label, reject degenerate boxes,
crop (a failed crop skips the candidate), attempt background removal keeping
the plain crop on failure, and build the item. -/
def processObjectAfterFilter (env : VisionEnv) (imageUri : String)
    (obj : VisionObject) : Option SegmentedClothingItem :=
  match mapGoogleLabelToCategory obj.name with
  | none => none
  | some category =>
    let box := toPixelBox obj env.imageWidth env.imageHeight
    if box.width ≤ 0 ∨ box.height ≤ 0 then none
    else
      match env.cropResult imageUri box with
      | none => none
      | some croppedUri =>
        let transparentUri :=
          match env.removeBgResult croppedUri with
          | some t => t
          | none => croppedUri
        some { category := category, imageUri := transparentUri,
               boundingBox := box, confidence := obj.score }

/-- The full per-candidate loop body (lines 136-193): drop candidates with
score below `CONFIDENCE_THRESHOLD`, then process as above. -/
def processObject (env : VisionEnv) (imageUri : String) (obj : VisionObject) :
    Option SegmentedClothingItem :=
  if obj.score < CONFIDENCE_THRESHOLD then none
  else processObjectAfterFilter env imageUri obj

/-- The sort at line 134 (`sort((a, b) => b.score - a.score)`): a stable sort
by descending score. -/
def sortObjectsByScore (objs : List VisionObject) : List VisionObject :=
  List.insertionSort (fun a b => b.score ≤ a.score) objs

/-- `segmentWithGoogleVision` (`clothingSegmentationService.ts` lines 62-207):
fail when the credential is missing or the call fails; otherwise filter and
process the score-sorted candidates; throw the no-results error when nothing
qualifies. -/
def segmentWithGoogleVision (env : VisionEnv) (imageUri : String) :
    Except SegError (List SegmentedClothingItem) :=
  if !env.apiKeyConfigured then .error .apiKeyNotConfigured
  else if !env.serviceOk then .error .apiCallFailed
  else
    let items := (sortObjectsByScore env.objects).filterMap
      (processObject env imageUri)
    if items.isEmpty then .error .noClothingDetected
    else .ok items

/-- `mockSegmentation` (`clothingSegmentationService.ts` lines 319-343): the
fixed two-item result over the original image. -/
def mockSegmentation (imageUri : String) : List SegmentedClothingItem :=
  [{ category := .top, imageUri := imageUri,
     boundingBox := { x := 100, y := 50, width := 200, height := 150 },
     confidence := 95/100 },
   { category := .bottom, imageUri := imageUri,
     boundingBox := { x := 100, y := 200, width := 200, height := 200 },
     confidence := 92/100 }]

/-- `segmentClothing` (`clothingSegmentationService.ts` lines 38-57): try the
Google Vision path; on any error from it fall back to the mock result. -/
def segmentClothing (env : VisionEnv) (imageUri : String) :
    List SegmentedClothingItem :=
  match segmentWithGoogleVision env imageUri with
  | .ok items => items
  | .error _ => mockSegmentation imageUri

/-- `AIRecognitionResult` of the aiService source. -/
structure AIRecognitionResult where
  category : ClothingCategory
  confidence : ℚ
  deriving DecidableEq, Repr

/-- The character-code hash `imageUri.split('').reduce((acc, c) => acc + c.charCodeAt(0), 0)`. -/
def charCodeSum (s : String) : Nat :=
  s.toList.foldl (fun acc c => acc + c.toNat) 0

/-- The six-category list used by the mock recognizer. -/
def allCategories : List ClothingCategory :=
  [.top, .bottom, .dress, .outerwear, .shoes, .accessories]

/-- Body of `mockRecognitionMultiple` (aiService, lines 92-116) as a function
of the hash: the hash picks 1-3 results; result `i` uses category index
`(hash + i*7) % 6` and confidence `max(0.5, 0.95 - i*0.15)`; the list is then
sorted by descending confidence (a stable sort models
`sort((a, b) => b.confidence - a.confidence)`). -/
def mockResultsOfHash (hash : Nat) : List AIRecognitionResult :=
  let numResults := hash % 3 + 1
  let results := (List.range numResults).map (fun i =>
    { category := allCategories.getD ((hash + i * 7) % allCategories.length) .top
      confidence := max (1/2 : ℚ) (95/100 - (i : ℚ) * (15/100)) })
  List.insertionSort (fun a b => b.confidence ≤ a.confidence) results

/-- `mockRecognitionMultiple` (aiService, lines 92-116): the above at the
character-code hash of the image reference. -/
def mockRecognitionMultiple (imageUri : String) : List AIRecognitionResult :=
  mockResultsOfHash (charCodeSum imageUri)

/-- Environment of one `removeBackgroundWithRemoveBg` run
(`backgroundRemovalService.ts` lines 47-162): credential presence, the HTTP
response status, the size of the downloaded blob, FileReader success, and what
`getInfoAsync` reports about the written artifact (existence and size). -/
structure RemoveBgEnv where
  apiKeyConfigured : Bool
  responseOk : Bool
  blobSize : Nat
  readerOk : Bool
  fileExists : Bool
  fileSize : Nat
  fileUri : String
  deriving DecidableEq, Repr

/-- The errors `removeBackgroundWithRemoveBg` can throw. -/
inductive RemoveBgError
  | apiKeyNotConfigured
  | apiCallFailed
  | emptyImageData
  | fileReaderFailed
  | saveFailed
  deriving DecidableEq, Repr

/-- `removeBackgroundWithRemoveBg` (`backgroundRemovalService.ts` lines
47-162): throw when the credential is missing, the response is not ok, the
downloaded blob is empty (`blob.size === 0`, line 106), the FileReader fails,
or the written file does not exist (`!fileInfo.exists`, line 144); otherwise
return the artifact reference.  Note the source checks only existence of the
written artifact, not its size. -/
def removeBackgroundWithRemoveBg (env : RemoveBgEnv) :
    Except RemoveBgError String :=
  if !env.apiKeyConfigured then .error .apiKeyNotConfigured
  else if !env.responseOk then .error .apiCallFailed
  else if env.blobSize = 0 then .error .emptyImageData
  else if !env.readerOk then .error .fileReaderFailed
  else if !env.fileExists then .error .saveFailed
  else .ok env.fileUri

/-! ### Evaluation lemmas for the binary64 rounding model -/

/-- `Int.log 2` is determined by a bracketing pair of powers of two. -/
theorem int_log_two_eq (q : ℚ) (k : ℤ) (hq : 0 < q)
    (h1 : (2:ℚ)^k ≤ q) (h2 : q < (2:ℚ)^(k+1)) : Int.log 2 q = k := by
  have hb : 1 < (2:ℕ) := one_lt_two
  have hcast : ((2:ℕ):ℚ) = (2:ℚ) := by norm_num
  have hl : k ≤ Int.log 2 q := by
    rw [← Int.zpow_le_iff_le_log hb hq, hcast]
    exact h1
  have hu : Int.log 2 q < k + 1 := by
    rw [← Int.lt_zpow_iff_log_lt hb hq, hcast]
    exact h2
  omega

/-- Evaluate `flPos` from an explicit scaled significand `m` in
`[2^52, 2^53)` and its rounding `k`. -/
theorem flPos_eval (q m : ℚ) (e k : ℤ)
    (hm : q = m * (2:ℚ)^e)
    (hm1 : (4503599627370496 : ℚ) ≤ m)
    (hm2 : m < 9007199254740992)
    (hround : roundNearestEven m = k) :
    flPos q = (k : ℚ) * (2:ℚ)^e := by
  have h2pos : (0:ℚ) < (2:ℚ)^e := by positivity
  have hmpos : (0:ℚ) < m := lt_of_lt_of_le (by norm_num) hm1
  have hq : 0 < q := hm ▸ mul_pos hmpos h2pos
  have h2ne : (2:ℚ) ≠ 0 := by norm_num
  have h52 : (2:ℚ)^(52:ℤ) = 4503599627370496 := by norm_num
  have h53 : (2:ℚ)^(53:ℤ) = 9007199254740992 := by norm_num
  have hlow : (2:ℚ)^(e+52) ≤ q := by
    rw [hm, zpow_add₀ h2ne, h52, mul_comm ((2:ℚ)^e) _]
    exact mul_le_mul_of_nonneg_right hm1 h2pos.le
  have hhigh : q < (2:ℚ)^(e+53) := by
    rw [hm, zpow_add₀ h2ne, h53, mul_comm ((2:ℚ)^e) _]
    exact mul_lt_mul_of_pos_right hm2 h2pos
  have hlog : Int.log 2 q = e + 52 := by
    refine int_log_two_eq q (e+52) hq hlow ?_
    rw [show e + 52 + 1 = e + 53 by ring]
    exact hhigh
  unfold flPos
  rw [hlog]
  rw [show (52:ℤ) - (e + 52) = -e by ring, show e + 52 - 52 = e by ring]
  have hqm : q * (2:ℚ)^(-e) = m := by
    rw [hm, mul_assoc, ← zpow_add₀ h2ne, show e + -e = 0 by ring, zpow_zero,
      mul_one]
  rw [hqm, hround]

/-- On positive inputs `fl` is `flPos`. -/
theorem fl_of_pos (q : ℚ) (hq : 0 < q) : fl q = flPos q := by
  unfold fl
  rw [if_neg hq.ne', if_neg (not_lt.mpr hq.le)]

/-- Evaluate `fl` on a positive rational from an explicit scaled significand. -/
theorem fl_eval (q m : ℚ) (e k : ℤ)
    (hq : 0 < q)
    (hm : q = m * (2:ℚ)^e)
    (hm1 : (4503599627370496 : ℚ) ≤ m)
    (hm2 : m < 9007199254740992)
    (hround : roundNearestEven m = k) :
    fl q = (k : ℚ) * (2:ℚ)^e := by
  rw [fl_of_pos q hq]
  exact flPos_eval q m e k hm hm1 hm2 hround

/-- 0.1 parses to the binary64 value `dbl_0_1` (rounded up). -/
theorem fl_dbl_0_1 : fl (1/10) = dbl_0_1 := by
  rw [fl_eval (1/10) (36028797018963968/5) (-56) 7205759403792794
    (by norm_num) (by norm_num) (by norm_num) (by norm_num)
    (by norm_num [roundNearestEven])]
  norm_num [dbl_0_1]

/-- 0.2 parses to the binary64 value `dbl_0_2` (rounded up). -/
theorem fl_dbl_0_2 : fl (2/10) = dbl_0_2 := by
  rw [fl_eval (2/10) (36028797018963968/5) (-55) 7205759403792794
    (by norm_num) (by norm_num) (by norm_num) (by norm_num)
    (by norm_num [roundNearestEven])]
  norm_num [dbl_0_2]

/-- 0.6 parses to the binary64 value `dbl_0_6` (rounded down). -/
theorem fl_dbl_0_6 : fl (6/10) = dbl_0_6 := by
  rw [fl_eval (6/10) (27021597764222976/5) (-53) 5404319552844595
    (by norm_num) (by norm_num) (by norm_num) (by norm_num)
    (by norm_num [roundNearestEven])]
  norm_num [dbl_0_6]

/-- 0.7 parses to the binary64 value `dbl_0_7` (rounded down). -/
theorem fl_dbl_0_7 : fl (7/10) = dbl_0_7 := by
  rw [fl_eval (7/10) (31525197391593472/5) (-53) 6305039478318694
    (by norm_num) (by norm_num) (by norm_num) (by norm_num)
    (by norm_num [roundNearestEven])]
  norm_num [dbl_0_7]

/-- The double product 0.1 * 1000 rounds to exactly 100. -/
theorem fl_x_eval : fl (dbl_0_1 * 1000) = 100 := by
  rw [fl_eval (dbl_0_1 * 1000) (450359962737049625/64) (-46) 7036874417766400
    (by norm_num [dbl_0_1]) (by norm_num [dbl_0_1]) (by norm_num) (by norm_num)
    (by norm_num [roundNearestEven])]
  norm_num

/-- The double product 0.2 * 1000 rounds to exactly 200. -/
theorem fl_y_eval : fl (dbl_0_2 * 1000) = 200 := by
  rw [fl_eval (dbl_0_2 * 1000) (450359962737049625/64) (-45) 7036874417766400
    (by norm_num [dbl_0_2]) (by norm_num [dbl_0_2]) (by norm_num) (by norm_num)
    (by norm_num [roundNearestEven])]
  norm_num

/-- The double difference 0.6 - 0.1 rounds to exactly 0.5 (a tie resolved to
the even significand). -/
theorem fl_wdiff_eval : fl (dbl_0_6 - dbl_0_1) = 1/2 := by
  rw [fl_eval (dbl_0_6 - dbl_0_1) (18014398509481983/2) (-54) 9007199254740992
    (by norm_num [dbl_0_6, dbl_0_1]) (by norm_num [dbl_0_6, dbl_0_1])
    (by norm_num) (by norm_num) (by norm_num [roundNearestEven])]
  norm_num

/-- The double width (0.6 - 0.1) * 1000 is exactly 500. -/
theorem fl_w_eval : fl (fl (dbl_0_6 - dbl_0_1) * 1000) = 500 := by
  rw [fl_wdiff_eval]
  rw [fl_eval ((1/2 : ℚ) * 1000) 8796093022208000 (-44) 8796093022208000
    (by norm_num) (by norm_num) (by norm_num) (by norm_num)
    (by norm_num [roundNearestEven])]
  norm_num

/-- The double difference 0.7 - 0.2 is 0.49999999999999994, strictly below
one half (it is exactly representable, so no further rounding occurs). -/
theorem fl_hdiff_eval :
    fl (dbl_0_7 - dbl_0_2) = 9007199254740991/18014398509481984 := by
  rw [fl_eval (dbl_0_7 - dbl_0_2) 9007199254740991 (-54) 9007199254740991
    (by norm_num [dbl_0_7, dbl_0_2]) (by norm_num [dbl_0_7, dbl_0_2])
    (by norm_num) (by norm_num) (by norm_num [roundNearestEven])]
  norm_num

/-- The double height (0.7 - 0.2) * 1000 is 499.99999999999994, strictly
below 500. -/
theorem fl_h_eval :
    fl (fl (dbl_0_7 - dbl_0_2) * 1000) = 8796093022207999/17592186044416 := by
  rw [fl_hdiff_eval]
  rw [fl_eval ((9007199254740991/18014398509481984 : ℚ) * 1000)
    (1125899906842623875/128) (-44) 8796093022207999
    (by norm_num) (by norm_num) (by norm_num) (by norm_num)
    (by norm_num [roundNearestEven])]
  norm_num

/-! ### Helper lemmas about the per-candidate processing -/

/-- A candidate whose computed pixel box has non-positive width or height is
processed to `none`, whatever else happens. -/
theorem processObject_none_of_degenerate (env : VisionEnv) (uri : String)
    (o : VisionObject)
    (h : (toPixelBox o env.imageWidth env.imageHeight).width ≤ 0 ∨
         (toPixelBox o env.imageWidth env.imageHeight).height ≤ 0) :
    processObject env uri o = none := by
  unfold processObject processObjectAfterFilter
  split
  · rfl
  · split
    · rfl
    · simp only [if_pos h]

/-- A successfully processed candidate has confidence at least the threshold. -/
theorem confidence_of_processObject (env : VisionEnv) (uri : String)
    (obj : VisionObject) (item : SegmentedClothingItem)
    (h : processObject env uri obj = some item) :
    CONFIDENCE_THRESHOLD ≤ item.confidence := by
  unfold processObject at h
  split at h
  · exact absurd h (by simp)
  · rename_i hscore
    push_neg at hscore
    unfold processObjectAfterFilter at h
    split at h
    · exact absurd h (by simp)
    · dsimp only at h
      split at h
      · exact absurd h (by simp)
      · split at h
        · exact absurd h (by simp)
        · simp only [Option.some.injEq] at h
          rw [← h]
          exact hscore

/-- When the score passes, the label maps, the box is non-degenerate, the crop
succeeds and background removal fails, the candidate is processed into an item
carrying the plain-crop reference. -/
theorem processObject_of_success (env : VisionEnv) (uri : String)
    (obj : VisionObject) (cat : ClothingCategory) (c : String)
    (hscore : ¬ obj.score < CONFIDENCE_THRESHOLD)
    (hcat : mapGoogleLabelToCategory obj.name = some cat)
    (hbox : ¬ ((toPixelBox obj env.imageWidth env.imageHeight).width ≤ 0 ∨
               (toPixelBox obj env.imageWidth env.imageHeight).height ≤ 0))
    (hcrop : env.cropResult uri (toPixelBox obj env.imageWidth env.imageHeight) = some c)
    (hbg : env.removeBgResult c = none) :
    processObject env uri obj =
      some { category := cat, imageUri := c,
             boundingBox := toPixelBox obj env.imageWidth env.imageHeight,
             confidence := obj.score } := by
  unfold processObject
  rw [if_neg hscore]
  unfold processObjectAfterFilter
  rw [hcat]
  simp only [if_neg hbox, hcrop, hbg]

example : mapGoogleLabelToCategory "Person wearing red shirt" = none := by decide
example : mapGoogleLabelToCategory "Running shoe" = some .shoes := by decide
example : mapGoogleLabelToCategory "Evening gown" = some .dress := by decide
example : mapGoogleLabelToCategory "Umbrella" = none := by decide

/-! ### Concrete environments for witnesses and counterexamples -/

/-- A run where the service is reachable and answers, but only with
non-clothing detections (a person and the sky). -/
def envOnlyPersonSky : VisionEnv :=
  { apiKeyConfigured := true, serviceOk := true,
    objects := [{ name := "Person", score := 9/10, v0x := 0, v0y := 0, v2x := 1, v2y := 1 },
                { name := "Sky", score := 8/10, v0x := 0, v0y := 0, v2x := 1, v2y := 1 }],
    imageWidth := 1000, imageHeight := 1000,
    cropResult := fun _ _ => some "crop.png",
    removeBgResult := fun _ => some "nobg.png" }

/-- A run with no credential configured (the mock fallback fires). -/
def envNoKey : VisionEnv :=
  { apiKeyConfigured := false, serviceOk := true, objects := [],
    imageWidth := 1000, imageHeight := 1000,
    cropResult := fun _ _ => some "crop.png",
    removeBgResult := fun _ => some "nobg.png" }

/-- A run where one shirt is detected (over a dyadic quad whose coordinates
0.25 and 0.75 are exactly representable doubles), its crop succeeds, and
background removal fails for every image. -/
def envShirtBgFails : VisionEnv :=
  { apiKeyConfigured := true, serviceOk := true,
    objects := [{ name := "Shirt", score := 85/100,
                  v0x := 1/4, v0y := 1/4, v2x := 3/4, v2y := 3/4 }],
    imageWidth := 1000, imageHeight := 1000,
    cropResult := fun _ _ => some "crop1.png",
    removeBgResult := fun _ => none }

/-- The claim's flagship quad: the corner coordinates are the binary64 values
of the decimal literals 0.1, 0.2, 0.6, 0.7 — the numbers the recognition
service would actually deliver for that quad. -/
def objClaim2 : VisionObject :=
  { name := "Dress", score := 8/10,
    v0x := dbl_0_1, v0y := dbl_0_2, v2x := dbl_0_6, v2y := dbl_0_7 }

/-- On a 1000×1000 image the flagship quad maps to height 499: the binary64
value of 0.7 - 0.2 is 0.49999999999999994, whose product with 1000 floors to
499, while 0.6 - 0.1 rounds to exactly 0.5 giving width 500. -/
theorem toPixelBox_objClaim2 :
    toPixelBox objClaim2 1000 1000 =
      { x := 100, y := 200, width := 500, height := 499 } := by
  show toPixelBox
    { name := "Dress", score := 8/10,
      v0x := dbl_0_1, v0y := dbl_0_2, v2x := dbl_0_6, v2y := dbl_0_7 }
    1000 1000 = _
  unfold toPixelBox
  simp only
  rw [fl_x_eval, fl_y_eval, fl_w_eval, fl_h_eval]
  norm_num

/-- The dyadic shirt quad of `envShirtBgFails` maps to the box
(250, 250, 500, 500); every intermediate double value is exact. -/
theorem toPixelBox_shirt :
    toPixelBox { name := "Shirt", score := 85/100,
                 v0x := 1/4, v0y := 1/4, v2x := 3/4, v2y := 3/4 }
      1000 1000 =
      { x := 250, y := 250, width := 500, height := 500 } := by
  have hdiff : fl ((3:ℚ)/4 - 1/4) = 1/2 := by
    rw [show (3:ℚ)/4 - 1/4 = 1/2 by norm_num]
    rw [fl_eval (1/2) 4503599627370496 (-53) 4503599627370496
      (by norm_num) (by norm_num) (by norm_num) (by norm_num)
      (by norm_num [roundNearestEven])]
    norm_num
  have h500 : fl ((1/2 : ℚ) * 1000) = 500 := by
    rw [fl_eval ((1/2 : ℚ) * 1000) 8796093022208000 (-44) 8796093022208000
      (by norm_num) (by norm_num) (by norm_num) (by norm_num)
      (by norm_num [roundNearestEven])]
    norm_num
  have h250 : fl ((1/4 : ℚ) * 1000) = 250 := by
    rw [fl_eval ((1/4 : ℚ) * 1000) 8796093022208000 (-45) 8796093022208000
      (by norm_num) (by norm_num) (by norm_num) (by norm_num)
      (by norm_num [roundNearestEven])]
    norm_num
  unfold toPixelBox
  simp only
  rw [hdiff, h500, h250]
  norm_num

/-! ### The claims -/

/-- Claim C1, as stated, is false: when the real path succeeds in contacting
the service but zero qualifying items remain, `segmentWithGoogleVision` throws
the no-results error, yet `segmentClothing` catches it like any other error
and returns the fixed two-item mock result set. -/
theorem C1_counterexample :
    envOnlyPersonSky.apiKeyConfigured = true ∧ envOnlyPersonSky.serviceOk = true ∧
    segmentWithGoogleVision envOnlyPersonSky "photo.jpg" =
      .error .noClothingDetected ∧
    segmentClothing envOnlyPersonSky "photo.jpg" =
      [{ category := .top, imageUri := "photo.jpg",
         boundingBox := { x := 100, y := 50, width := 200, height := 150 },
         confidence := 95/100 },
       { category := .bottom, imageUri := "photo.jpg",
         boundingBox := { x := 100, y := 200, width := 200, height := 200 },
         confidence := 92/100 }] := by
  have hPerson : mapGoogleLabelToCategory "Person" = none := by decide
  have hSky : mapGoogleLabelToCategory "Sky" = none := by decide
  refine ⟨rfl, rfl, ?_, ?_⟩ <;>
    norm_num [segmentWithGoogleVision, segmentClothing, sortObjectsByScore,
      List.insertionSort, List.orderedInsert, processObject,
      processObjectAfterFilter, hPerson, hSky, envOnlyPersonSky,
      CONFIDENCE_THRESHOLD, mockSegmentation]

/-- Claim C1 (amended): if the real-service path succeeds in contacting the
recognition service but, after filtering, mapping and coordinate conversion,
zero qualifying items remain, then `segmentWithGoogleVision` fails with the
no-results error, and `segmentClothing` catches that error and falls back to
the mock two-item result set (it does not propagate the failure). -/
theorem C1_noResults_falls_back_to_mock (env : VisionEnv) (uri : String)
    (hkey : env.apiKeyConfigured = true) (hsvc : env.serviceOk = true)
    (hempty : (sortObjectsByScore env.objects).filterMap (processObject env uri) = []) :
    segmentWithGoogleVision env uri = .error .noClothingDetected ∧
    segmentClothing env uri = mockSegmentation uri := by
  have h1 : segmentWithGoogleVision env uri = .error .noClothingDetected := by
    unfold segmentWithGoogleVision
    rw [hkey, hsvc]
    simp [hempty]
  refine ⟨h1, ?_⟩
  unfold segmentClothing
  rw [h1]

/-- Witness for C1: the amended statement at the person-and-sky run. -/
theorem C1_witness :
    segmentWithGoogleVision envOnlyPersonSky "photo.jpg" =
      .error .noClothingDetected ∧
    segmentClothing envOnlyPersonSky "photo.jpg" = mockSegmentation "photo.jpg" :=
  C1_noResults_falls_back_to_mock envOnlyPersonSky "photo.jpg" rfl rfl (by
    have hPerson : mapGoogleLabelToCategory "Person" = none := by decide
    have hSky : mapGoogleLabelToCategory "Sky" = none := by decide
    norm_num [sortObjectsByScore, List.insertionSort, List.orderedInsert,
      processObject, processObjectAfterFilter, hPerson, hSky, envOnlyPersonSky,
      CONFIDENCE_THRESHOLD])

/-- Claim C2, as stated, is false on the program: with the binary64 values of
topLeft=(0.1,0.2) and bottomRight=(0.6,0.7) on a 1000×1000 image, the source's
arithmetic gives height 499 — the double 0.7 - 0.2 is 0.49999999999999994 and
`Math.floor` of its product with 1000 is 499, not the claimed 500. -/
theorem C2_counterexample :
    objClaim2.v0x = fl (1/10) ∧ objClaim2.v0y = fl (2/10) ∧
    objClaim2.v2x = fl (6/10) ∧ objClaim2.v2y = fl (7/10) ∧
    toPixelBox objClaim2 1000 1000 =
      { x := 100, y := 200, width := 500, height := 499 } ∧
    toPixelBox objClaim2 1000 1000 ≠
      { x := 100, y := 200, width := 500, height := 500 } := by
  refine ⟨fl_dbl_0_1.symm, fl_dbl_0_2.symm, fl_dbl_0_6.symm, fl_dbl_0_7.symm,
    toPixelBox_objClaim2, ?_⟩
  rw [toPixelBox_objClaim2]
  simp

/-- Claim C2 (amended): the coordinate mapper floors the binary64-rounded
values of the spec's formulas (`x = floor(topLeft.x * imageWidth)` and so on,
evaluated in double arithmetic); on a 1000×1000 image the quad with the
double values of (0.1,0.2)-(0.6,0.7) yields {x:100, y:200, width:500,
height:499} — the double 0.7 - 0.2 falls just below 0.5, so the height floors
to 499 rather than 500; and a candidate whose computed width or height is ≤ 0
is dropped without aborting the processing of the remaining candidates. -/
theorem C2_coordinate_mapper (env : VisionEnv) (uri : String)
    (obj : VisionObject) (rest : List VisionObject)
    (hW : env.imageWidth = 1000) (hH : env.imageHeight = 1000)
    (h0x : obj.v0x = fl (1/10)) (h0y : obj.v0y = fl (2/10))
    (h2x : obj.v2x = fl (6/10)) (h2y : obj.v2y = fl (7/10)) :
    toPixelBox obj env.imageWidth env.imageHeight =
      { x := 100, y := 200, width := 500, height := 499 } ∧
    (∀ (o : VisionObject) (w h : ℚ), toPixelBox o w h =
      { x := ⌊fl (o.v0x * w)⌋, y := ⌊fl (o.v0y * h)⌋,
        width := ⌊fl (fl (o.v2x - o.v0x) * w)⌋,
        height := ⌊fl (fl (o.v2y - o.v0y) * h)⌋ }) ∧
    (∀ o : VisionObject,
      ((toPixelBox o env.imageWidth env.imageHeight).width ≤ 0 ∨
       (toPixelBox o env.imageWidth env.imageHeight).height ≤ 0) →
      List.filterMap (processObject env uri) (o :: rest) =
        List.filterMap (processObject env uri) rest) := by
  refine ⟨?_, fun o w h => rfl, fun o ho => ?_⟩
  · have hbox : toPixelBox obj env.imageWidth env.imageHeight =
        toPixelBox objClaim2 1000 1000 := by
      simp only [toPixelBox, hW, hH, h0x, h0y, h2x, h2y, fl_dbl_0_1,
        fl_dbl_0_2, fl_dbl_0_6, fl_dbl_0_7, objClaim2]
    rw [hbox, toPixelBox_objClaim2]
  · rw [List.filterMap_cons, processObject_none_of_degenerate env uri o ho]

/-- Witness for C2 at the flagship quad over a 1000×1000 run. -/
theorem C2_witness :
    toPixelBox objClaim2
        envShirtBgFails.imageWidth envShirtBgFails.imageHeight =
      { x := 100, y := 200, width := 500, height := 499 } :=
  (C2_coordinate_mapper envShirtBgFails "img.png" objClaim2 [] rfl rfl
    fl_dbl_0_1.symm fl_dbl_0_2.symm fl_dbl_0_6.symm fl_dbl_0_7.symm).1

/-- Claim C3: any label whose lower-cased form contains an exclusion keyword
maps to `none`, even when a clothing keyword also occurs; in particular
"Person wearing red shirt" maps to `none` although it contains "shirt". -/
theorem C3_person_exclusion (label keyword : String)
    (hk : keyword ∈ excludeKeywords)
    (hsub : strContains (strLower label) keyword = true) :
    mapGoogleLabelToCategory label = none ∧
    mapGoogleLabelToCategory "Person wearing red shirt" = none ∧
    strContains (strLower "Person wearing red shirt") "shirt" = true := by
  refine ⟨?_, by decide, by decide⟩
  unfold mapGoogleLabelToCategory
  rw [if_pos]
  exact List.any_eq_true.mpr ⟨keyword, hk, hsub⟩

/-- Witness for C3 at the spec's concrete label. -/
theorem C3_witness : mapGoogleLabelToCategory "Person wearing red shirt" = none :=
  (C3_person_exclusion "Person wearing red shirt" "person" (by decide) (by decide)).1

/-- Claim C4: the confidence floor is inclusive at 0.3 — a candidate with
score exactly 3/10 is not dropped by the filter (processing proceeds to the
post-filter stage), while any candidate with score strictly below 3/10 is
dropped. -/
theorem C4_confidence_floor (env : VisionEnv) (uri : String) (obj : VisionObject) :
    (obj.score = 3/10 →
      processObject env uri obj = processObjectAfterFilter env uri obj) ∧
    (obj.score < 3/10 → processObject env uri obj = none) := by
  constructor
  · intro h
    unfold processObject CONFIDENCE_THRESHOLD
    rw [h, if_neg (lt_irrefl _)]
  · intro h
    unfold processObject CONFIDENCE_THRESHOLD
    rw [if_pos h]

/-- Witness for C4: a score-0.3 shirt passes the filter, a score-0.29999
shirt is dropped. -/
theorem C4_witness :
    processObject envShirtBgFails "img.png"
        { name := "Shirt", score := 3/10, v0x := 1/10, v0y := 2/10,
          v2x := 6/10, v2y := 7/10 } =
      processObjectAfterFilter envShirtBgFails "img.png"
        { name := "Shirt", score := 3/10, v0x := 1/10, v0y := 2/10,
          v2x := 6/10, v2y := 7/10 } ∧
    processObject envShirtBgFails "img.png"
        { name := "Shirt", score := 29999/100000, v0x := 1/10, v0y := 2/10,
          v2x := 6/10, v2y := 7/10 } = none :=
  ⟨(C4_confidence_floor envShirtBgFails "img.png" _).1 rfl,
   (C4_confidence_floor envShirtBgFails "img.png" _).2 (by norm_num)⟩

/-- Claim C5: whenever the real-service path throws, `segmentClothing` returns
the fixed two-item mock result — a "top" with confidence 0.95 and a "bottom"
with confidence 0.92, both referencing the original input image. -/
theorem C5_mock_fallback (env : VisionEnv) (uri : String) (e : SegError)
    (h : segmentWithGoogleVision env uri = .error e) :
    segmentClothing env uri =
      [{ category := .top, imageUri := uri,
         boundingBox := { x := 100, y := 50, width := 200, height := 150 },
         confidence := 95/100 },
       { category := .bottom, imageUri := uri,
         boundingBox := { x := 100, y := 200, width := 200, height := 200 },
         confidence := 92/100 }] := by
  unfold segmentClothing
  rw [h]
  rfl

/-- Inversion: a successful real-path run returns exactly the filtered,
score-sorted, processed candidate list. -/
theorem segmentWithGoogleVision_ok (env : VisionEnv) (uri : String)
    (items : List SegmentedClothingItem)
    (h : segmentWithGoogleVision env uri = .ok items) :
    items = (sortObjectsByScore env.objects).filterMap (processObject env uri) := by
  unfold segmentWithGoogleVision at h
  split at h
  · exact absurd h (by simp)
  · split at h
    · exact absurd h (by simp)
    · dsimp only at h
      split at h
      · exact absurd h (by simp)
      · simp only [Except.ok.injEq] at h
        exact h.symm

/-- Claim C6: when a surviving candidate's crop succeeds but background
removal fails, the candidate still appears in the final result list, carrying
the plain-crop reference. -/
theorem C6_bg_failure_keeps_plain_crop (env : VisionEnv) (uri : String)
    (obj : VisionObject) (cat : ClothingCategory) (c : String)
    (hscore : ¬ obj.score < CONFIDENCE_THRESHOLD)
    (hcat : mapGoogleLabelToCategory obj.name = some cat)
    (hbox : ¬ ((toPixelBox obj env.imageWidth env.imageHeight).width ≤ 0 ∨
               (toPixelBox obj env.imageWidth env.imageHeight).height ≤ 0))
    (hcrop : env.cropResult uri (toPixelBox obj env.imageWidth env.imageHeight) = some c)
    (hbg : env.removeBgResult c = none)
    (hmem : obj ∈ env.objects)
    (hkey : env.apiKeyConfigured = true) (hsvc : env.serviceOk = true) :
    ∃ items, segmentWithGoogleVision env uri = .ok items ∧
      ({ category := cat, imageUri := c,
         boundingBox := toPixelBox obj env.imageWidth env.imageHeight,
         confidence := obj.score } : SegmentedClothingItem) ∈ items := by
  have hproc := processObject_of_success env uri obj cat c hscore hcat hbox hcrop hbg
  have hmem2 : obj ∈ sortObjectsByScore env.objects :=
    ((List.perm_insertionSort _ _).mem_iff).mpr hmem
  have hitem := List.mem_filterMap.mpr ⟨obj, hmem2, hproc⟩
  have hne := List.ne_nil_of_mem hitem
  refine ⟨(sortObjectsByScore env.objects).filterMap (processObject env uri), ?_, hitem⟩
  unfold segmentWithGoogleVision
  rw [hkey, hsvc]
  simp [hne]

/-- Witness for C6: one detected shirt, crop succeeds, background removal
fails; the shirt stays in the output with the plain-crop reference. -/
theorem C6_witness :
    ∃ items, segmentWithGoogleVision envShirtBgFails "img.png" = .ok items ∧
      ({ category := ClothingCategory.top, imageUri := "crop1.png",
         boundingBox := toPixelBox
           { name := "Shirt", score := 85/100,
             v0x := 1/4, v0y := 1/4, v2x := 3/4, v2y := 3/4 }
           envShirtBgFails.imageWidth envShirtBgFails.imageHeight,
         confidence := 85/100 } : SegmentedClothingItem) ∈ items :=
  C6_bg_failure_keeps_plain_crop envShirtBgFails "img.png"
    { name := "Shirt", score := 85/100,
      v0x := 1/4, v0y := 1/4, v2x := 3/4, v2y := 3/4 }
    ClothingCategory.top "crop1.png"
    (by norm_num [CONFIDENCE_THRESHOLD])
    (by decide)
    (by
      rw [show envShirtBgFails.imageWidth = (1000:ℚ) from rfl,
        show envShirtBgFails.imageHeight = (1000:ℚ) from rfl, toPixelBox_shirt]
      norm_num)
    rfl rfl (by simp [envShirtBgFails]) rfl rfl

/-- Claim C7: the mock recognition client is deterministic — the same image
reference yields the same number of results, the same categories, the same
confidences, in the same order. -/
theorem C7_mock_recognition_deterministic (s t : String) (h : s = t) :
    (mockRecognitionMultiple s).length = (mockRecognitionMultiple t).length ∧
    (mockRecognitionMultiple s).map AIRecognitionResult.category =
      (mockRecognitionMultiple t).map AIRecognitionResult.category ∧
    (mockRecognitionMultiple s).map AIRecognitionResult.confidence =
      (mockRecognitionMultiple t).map AIRecognitionResult.confidence := by
  subst h
  exact ⟨rfl, rfl, rfl⟩

/-- The mock recognizer's result list, as a function of the hash, equals the
spec's form: `numResults = hash % 3 + 1` entries, entry `i` with category
index `(hash + i) % 6` (the code's `(hash + i*7) % 6` is congruent because
`7 ≡ 1 [MOD 6]`), already in generation order (the descending-confidence sort
does not reorder it). -/
theorem mockResultsOfHash_eq (n : Nat) :
    mockResultsOfHash n =
      (List.range (n % 3 + 1)).map (fun i =>
        { category := allCategories.getD ((n + i) % 6) .top
          confidence := max (1/2 : ℚ) (95/100 - (i : ℚ) * (15/100)) }) := by
  have e0 : max (1/2 : ℚ) (95/100 - ((0:ℕ):ℚ) * (15/100)) = 95/100 := by norm_num
  have e1 : max (1/2 : ℚ) (95/100 - ((1:ℕ):ℚ) * (15/100)) = 4/5 := by norm_num
  have e2 : max (1/2 : ℚ) (95/100 - ((2:ℕ):ℚ) * (15/100)) = 13/20 := by norm_num
  have i1 : (n + 1 * 7) % 6 = (n + 1) % 6 := by omega
  have i2 : (n + 2 * 7) % 6 = (n + 2) % 6 := by omega
  have h3 : n % 3 = 0 ∨ n % 3 = 1 ∨ n % 3 = 2 := by omega
  unfold mockResultsOfHash
  rcases h3 with h | h | h <;>
    rw [h] <;>
    norm_num [List.range_succ, allCategories, List.insertionSort,
      List.orderedInsert, e0, e1, e2, i1, i2]

/-- Claim C8: for every image reference, the mock recognition result has
`hash % 3 + 1` entries (between 1 and 3); entry `i` has confidence
`max(0.5, 0.95 - 0.15*i)` and category `allCategories[(hash + i) % 6]`; the
confidences are the prefix of 0.95, 0.80, 0.65 of that length, and the list
is ordered by descending confidence. -/
theorem C8_mock_recognition_formula (s : String) :
    mockRecognitionMultiple s =
      (List.range (charCodeSum s % 3 + 1)).map (fun i =>
        { category := allCategories.getD ((charCodeSum s + i) % 6) .top
          confidence := max (1/2 : ℚ) (95/100 - (i : ℚ) * (15/100)) }) ∧
    (mockRecognitionMultiple s).map AIRecognitionResult.confidence =
      List.take (charCodeSum s % 3 + 1) [(95:ℚ)/100, 80/100, 65/100] ∧
    1 ≤ (mockRecognitionMultiple s).length ∧
    (mockRecognitionMultiple s).length ≤ 3 ∧
    List.Chain' (fun a b => b.confidence ≤ a.confidence)
      (mockRecognitionMultiple s) := by
  have heq : mockRecognitionMultiple s = mockResultsOfHash (charCodeSum s) := rfl
  rw [heq, mockResultsOfHash_eq]
  set n := charCodeSum s with hn
  have e0 : max (1/2 : ℚ) (95/100 - ((0:ℕ):ℚ) * (15/100)) = 95/100 := by norm_num
  have e1 : max (1/2 : ℚ) (95/100 - ((1:ℕ):ℚ) * (15/100)) = 4/5 := by norm_num
  have e2 : max (1/2 : ℚ) (95/100 - ((2:ℕ):ℚ) * (15/100)) = 13/20 := by norm_num
  have h3 : n % 3 = 0 ∨ n % 3 = 1 ∨ n % 3 = 2 := by omega
  rcases h3 with h | h | h <;>
    rw [h] <;>
    norm_num [List.range_succ, e0, e1, e2, List.chain'_cons]

/-- Witness for C7 at a fixed image reference. -/
theorem C7_witness :
    (mockRecognitionMultiple "closet.jpg").length =
      (mockRecognitionMultiple "closet.jpg").length ∧
    (mockRecognitionMultiple "closet.jpg").map AIRecognitionResult.category =
      (mockRecognitionMultiple "closet.jpg").map AIRecognitionResult.category ∧
    (mockRecognitionMultiple "closet.jpg").map AIRecognitionResult.confidence =
      (mockRecognitionMultiple "closet.jpg").map AIRecognitionResult.confidence :=
  C7_mock_recognition_deterministic "closet.jpg" "closet.jpg" rfl

/-- A successful response whose written artifact exists but has size zero. -/
def envBgZeroByteFile : RemoveBgEnv :=
  { apiKeyConfigured := true, responseOk := true, blobSize := 1024,
    readerOk := true, fileExists := true, fileSize := 0,
    fileUri := "bg_removed_1.png" }

/-- A successful response whose downloaded blob is empty. -/
def envBgEmptyBlob : RemoveBgEnv :=
  { apiKeyConfigured := true, responseOk := true, blobSize := 0,
    readerOk := true, fileExists := true, fileSize := 2048,
    fileUri := "bg_removed_2.png" }

/-- Claim C9, as stated, is false: the code never checks the size of the
written artifact, so a run in which the artifact exists but was written with
size zero still returns success. -/
theorem C9_counterexample :
    envBgZeroByteFile.fileExists = true ∧ envBgZeroByteFile.fileSize = 0 ∧
    removeBackgroundWithRemoveBg envBgZeroByteFile = .ok "bg_removed_1.png" :=
  ⟨rfl, rfl, rfl⟩

/-- Claim C9 (amended): after a successful service response the component
fails on an empty downloaded payload (`blob.size === 0`) and on a missing
written artifact, and any successful return implies the artifact exists and
the payload was non-empty; the written artifact's own size is not re-checked. -/
theorem C9_success_checks (env : RemoveBgEnv) :
    (env.apiKeyConfigured = true → env.responseOk = true → env.blobSize = 0 →
      removeBackgroundWithRemoveBg env = .error .emptyImageData) ∧
    (env.fileExists = false → ∀ uri, removeBackgroundWithRemoveBg env ≠ .ok uri) ∧
    (∀ uri, removeBackgroundWithRemoveBg env = .ok uri →
      uri = env.fileUri ∧ env.fileExists = true ∧ 0 < env.blobSize) := by
  obtain ⟨key, ok, bs, rd, fe, fs, uri⟩ := env
  by_cases hbs : bs = 0 <;>
    cases key <;> cases ok <;> cases rd <;> cases fe <;>
      (simp [removeBackgroundWithRemoveBg, hbs]; try omega)

/-- Witness for C9: the empty-blob run fails with the empty-image error. -/
theorem C9_witness :
    removeBackgroundWithRemoveBg envBgEmptyBlob = .error .emptyImageData :=
  (C9_success_checks envBgEmptyBlob).1 rfl rfl rfl

/-- Claim C10: every item `segmentClothing` returns — real path or mock
fallback — has one of the six categories and confidence at least 0.3. -/
theorem C10_result_invariant (env : VisionEnv) (uri : String)
    (item : SegmentedClothingItem) (hmem : item ∈ segmentClothing env uri) :
    item.category ∈ allCategories ∧ CONFIDENCE_THRESHOLD ≤ item.confidence := by
  refine ⟨by cases item.category <;> simp [allCategories], ?_⟩
  unfold segmentClothing at hmem
  cases hres : segmentWithGoogleVision env uri with
  | ok items =>
      rw [hres] at hmem
      rw [segmentWithGoogleVision_ok env uri items hres] at hmem
      obtain ⟨obj, _, hproc⟩ := List.mem_filterMap.mp hmem
      exact confidence_of_processObject env uri obj item hproc
  | error e =>
      rw [hres] at hmem
      simp only [mockSegmentation, List.mem_cons, List.mem_singleton,
        List.not_mem_nil, or_false] at hmem
      rcases hmem with h | h <;> rw [h] <;> norm_num [CONFIDENCE_THRESHOLD]

/-- Witness for C10 at the mock fallback's first item. -/
theorem C10_witness :
    ({ category := .top, imageUri := "u.jpg",
       boundingBox := { x := 100, y := 50, width := 200, height := 150 },
       confidence := 95/100 } : SegmentedClothingItem).category ∈ allCategories ∧
    CONFIDENCE_THRESHOLD ≤
      ({ category := .top, imageUri := "u.jpg",
         boundingBox := { x := 100, y := 50, width := 200, height := 150 },
         confidence := 95/100 } : SegmentedClothingItem).confidence :=
  C10_result_invariant envNoKey "u.jpg" _
    (by simp [segmentClothing, segmentWithGoogleVision, envNoKey, mockSegmentation])

/-- Witness for C5 at a run with no credential configured. -/
theorem C5_witness :
    segmentClothing envNoKey "outfit.jpg" =
      [{ category := .top, imageUri := "outfit.jpg",
         boundingBox := { x := 100, y := 50, width := 200, height := 150 },
         confidence := 95/100 },
       { category := .bottom, imageUri := "outfit.jpg",
         boundingBox := { x := 100, y := 200, width := 200, height := 200 },
         confidence := 92/100 }] :=
  C5_mock_fallback envNoKey "outfit.jpg" .apiKeyNotConfigured rfl
